import Mathlib

/-!
Verification development for the core comparison layer of GNU diff
(src/diff.c of the diffutils_color repository).

The embedding models `main`'s operand loop and `compare_files` (the entity
resolver, pair classifier and status aggregation) as pure Lean functions over
an abstract filesystem oracle `FS`.  External collaborators that are not part
of the source file (the content-diff engine `diff_2_files`, the directory
walker `diff_dirs`, `file_type`, and the OS calls stat/lstat/fstat/open/
readlink/close) are fields of `FS`.  File descriptors keep the source's
sentinel encoding (NONEXISTENT, UNOPENED, errno-encoded negatives, real
non-negative handles) as signed integers, exactly as in the C code.
-/

/-! ## Exit statuses and descriptor sentinels -/

abbrev EXIT_SUCCESS : Nat := 0
abbrev EXIT_FAILURE : Nat := 1
abbrev EXIT_TROUBLE : Nat := 2

/-- `cmp.file[f].desc` marker: nonexistent file (diff.c line 1085). -/
abbrev NONEXISTENT : Int := -1
/-- `cmp.file[f].desc` marker: unopened file (diff.c line 1086). -/
abbrev UNOPENED : Int := -2
/-- Encoded errno value (diff.c line 1087). -/
abbrev ERRNO_ENCODE (e : Nat) : Int := -3 - (e : Int)
/-- Inverse of `ERRNO_ENCODE` (diff.c line 1089). -/
abbrev ERRNO_DECODE (d : Int) : Int := -3 - d

abbrev STDIN_FILENO : Int := 0

abbrev ENOENT : Nat := 2
abbrev EBADF : Nat := 9

/-! ## File metadata (the parts of `struct stat` the source reads) -/

inductive FileType where
  | regular
  | directory
  | symlink
  | other
deriving DecidableEq, Repr

/-- `st_mode`, split into the file-type bits (tested by `S_ISREG`, `S_ISDIR`,
`S_ISLNK`) and the permission bits (`S_IRWXU | S_IRWXG | S_IRWXO`).
A zeroed `struct stat` has no type bits set, rendered here as `.other`. -/
structure StMode where
  ftype : FileType
  perms : Nat
deriving DecidableEq, Repr

structure Metadata where
  mode : StMode
  size : Int
  mtime : Int
  dev : Nat
  ino : Nat
  uid : Nat
deriving DecidableEq, Repr

def Metadata.zero : Metadata :=
  { mode := { ftype := .other, perms := 0 }, size := 0, mtime := 0,
    dev := 0, ino := 0, uid := 0 }

def isDir (m : StMode) : Bool := m.ftype == FileType.directory
def isReg (m : StMode) : Bool := m.ftype == FileType.regular
def isLnk (m : StMode) : Bool := m.ftype == FileType.symlink

/-! ## Configuration record

The finished option record consumed by the core, as left behind by `main`'s
option decoding.  `has_ignore_regexps` stands for
`ignore_regexp_list.regexps != NULL` and `ignore_white_space` for the
whitespace-folding enum being nonzero. -/

inductive OutputStyle where
  | normal
  | context
  | unified
  | ed
  | forward_ed
  | rcs
  | ifdef
  | sdiff
deriving DecidableEq, Repr

structure Config where
  new_file : Bool
  unidirectional_new_file : Bool
  recursive : Bool
  report_identical_files : Bool
  brief : Bool
  binary : Bool
  ignore_blank_lines : Bool
  ignore_case : Bool
  strip_trailing_cr : Bool
  has_ignore_regexps : Bool
  ignore_white_space : Bool
  no_dereference_symlinks : Bool
  output_style : OutputStyle
  suppress_common_lines : Bool
  group_format_unchanged : String
  line_format_unchanged : String
  file_label0 : Option String
  file_label1 : Option String
deriving DecidableEq, Repr

/-- diff.c lines 740-745: whether the active output style produces no output
when the files do not differ. -/
def no_diff_means_no_output (c : Config) : Bool :=
  match c.output_style with
  | .ifdef =>
      c.group_format_unchanged == "" ||
        (c.group_format_unchanged == "%=" && c.line_format_unchanged == "")
  | .sdiff => c.suppress_common_lines
  | _ => true

/-- diff.c lines 747-750: the quick-binary-differencing gate.  The C source
combines the flags with bitwise `&`, `|` and `~` over 0/1 values, which on
these operands coincides with the Boolean connectives used here. -/
def files_can_be_treated_as_binary (c : Config) : Bool :=
  c.brief && c.binary &&
    !(c.ignore_blank_lines || c.ignore_case || c.strip_trailing_cr ||
      c.has_ignore_regexps || c.ignore_white_space)

/-! ## Helpers whose C definitions live outside src/ -/

/-- Modelled from the spec: `same_file` (system header, absent from src/).
Rule 4 of the pair classifier: both regular files whose device+inode
identities match. -/
def same_file (s t : Metadata) : Bool :=
  isReg s.mode && isReg t.mode && s.dev == t.dev && s.ino == t.ino

/-- Modelled from the spec: `same_file_attributes` (system header, absent
from src/): the attribute-equality policy over mode, size and owner. -/
def same_file_attributes (s t : Metadata) : Bool :=
  s.mode == t.mode && s.size == t.size && s.uid == t.uid

/-- Modelled from the spec: `file_name_cmp` equality (absent from src/);
the right-hand name "textually equals" the left-hand one. -/
def file_name_eq (a b : String) : Bool := a == b

/-- Modelled from the spec: `file_name_concat` (gnulib, absent from src/);
a recursive child's path is "synthesized by joining the parent's path with a
child basename". -/
def file_name_concat (d n : String) : String := d ++ "/" ++ n

/-- Character-list worker for `last_component`: drop everything up to the
final slash. -/
def lastComponentAux : List Char → List Char → List Char
  | [], acc => acc.reverse
  | c :: rest, acc =>
      if c = '/' then lastComponentAux rest []
      else lastComponentAux rest (c :: acc)

/-- Modelled from the spec: `last_component` (gnulib, absent from src/); the
basename of a path, i.e. the part after the final slash. -/
def last_component (s : String) : String := String.mk (lastComponentAux s.data [])

/-- Modelled from the spec: `find_dir_file_pathname` (absent from src/); the
path formed by joining the directory with the other operand's basename. -/
def find_dir_file_pathname (dir base : String) : String :=
  file_name_concat dir base

/-! ## The abstract environment -/

/-- Trace of the I/O the core performs, in program order. -/
inductive Ev where
  | statEv (name : String)
  | stdinStatEv
  | openEv (name : String)
  | readlinkEv (name : String)
  | diff2Ev
  | diffDirsEv
deriving DecidableEq, Repr

/-- The diagnostic lines `compare_files` can emit, with their arguments. -/
inductive Msg where
  | onlyIn (dir name : String)
  | commonSubdirs (a b : String)
  | typeMismatch (a ta b tb : String)
  | symlinksDiffer (a b : String)
  | filesDiffer (a b : String)
  | identical (a b : String)
  | errMsg (name : String)
deriving DecidableEq, Repr

/-- The branch of the pair classifier that handled the pair. -/
inductive CmpAction where
  | earlyOnlyIn
  | failedEarly
  | bothAbsent
  | sameFileSkip
  | commonSubdirSkip
  | dirWalk
  | synthDirWalk
  | onlyInSide
  | typeMismatch
  | symlinkCmp
  | binaryFastPath
  | contentDiff
deriving DecidableEq, Repr

/-- The external world: OS calls plus the opaque collaborators
(`diff_2_files`, `diff_dirs`, `file_type`). -/
structure FS where
  stat : String → Except Nat Metadata
  lstat : String → Except Nat Metadata
  stdinStat : Except Nat Metadata
  stdinPos : Except Nat Int
  now : Int
  openFile : String → Int
  closeOk : Int → Bool
  readlink : String → Option String
  diff2 : String → String → Nat
  diffDirs : String → String → Nat
  fileTypeName : Metadata → String
  flushOk : Bool
  stdoutOk : Bool

/-- diff.c lines 1140-1143: `lstat` when `--no-dereference` is active,
`stat` otherwise. -/
def statFn (cfg : Config) (fs : FS) (n : String) : Except Nat Metadata :=
  if cfg.no_dereference_symlinks then fs.lstat n else fs.stat n

/-! ## Comparison state -/

structure FileSlot where
  name : String
  desc : Int
  stat : Metadata
deriving DecidableEq, Repr

/-- The two full names of the enclosing `ComparisonPair`
(`parent->file[0].name`, `parent->file[1].name`). -/
structure Parent where
  name0 : String
  name1 : String
deriving DecidableEq, Repr

structure CmpState where
  file0 : FileSlot
  file1 : FileSlot
  baseName0 : String
  status : Nat
  msgs : List Msg
  trace : List Ev
deriving DecidableEq, Repr

structure RunResult where
  status : Nat
  msgs : List Msg
  action : CmpAction
  trace : List Ev
  finalNames : Option (String × String)
deriving DecidableEq, Repr

inductive Outcome where
  | fatal (msg : String)
  | result (r : RunResult)
deriving DecidableEq, Repr

def actionOf : Outcome → Option CmpAction
  | .fatal _ => none
  | .result r => some r.action

def statusOf : Outcome → Option Nat
  | .fatal _ => none
  | .result r => some r.status

def msgsOf : Outcome → Option (List Msg)
  | .fatal _ => none
  | .result r => some r.msgs

def traceOf : Outcome → Option (List Ev)
  | .fatal _ => none
  | .result r => some r.trace

def namesOf : Outcome → Option (String × String)
  | .fatal _ => none
  | .result r => r.finalNames

def isFatal : Outcome → Bool
  | .fatal _ => true
  | .result _ => false

/-! ## Entity resolution (diff.c lines 1081-1179) -/

/-- diff.c lines 1081-1111: initialize the descriptors from name presence,
default a missing name to the other one, and record full names (joining with
the parent's directory names for recursive calls). -/
def initState (parent : Option Parent) (name0? name1? : Option String) :
    CmpState :=
  let desc0 := if name0?.isSome then UNOPENED else NONEXISTENT
  let desc1 := if name1?.isSome then UNOPENED else NONEXISTENT
  let n0 := name0?.getD (name1?.getD "")
  let n1 := name1?.getD n0
  let full0 := match parent with
    | none => n0
    | some p => file_name_concat p.name0 n0
  let full1 := match parent with
    | none => n1
    | some p => file_name_concat p.name1 n1
  { file0 := { name := full0, desc := desc0, stat := Metadata.zero },
    file1 := { name := full1, desc := desc1, stat := Metadata.zero },
    baseName0 := n0, status := EXIT_SUCCESS, msgs := [], trace := [] }

/-- diff.c lines 1120-1144: resolve one slot that is not nonexistent and not
deduplicated: either the stdin marker "-" (fstat, size adjustment by the
stream position for regular files, mtime stamped with the current time) or a
stat/lstat of the name. -/
def resolveSlotStat (cfg : Config) (fs : FS) (slot : FileSlot) :
    FileSlot × List Ev :=
  if slot.name = "-" then
    match fs.stdinStat with
    | .error e => ({ slot with desc := ERRNO_ENCODE e }, [Ev.stdinStatEv])
    | .ok m =>
        let dm : Int × Metadata :=
          if isReg m.mode then
            match fs.stdinPos with
            | .error e => (ERRNO_ENCODE e, m)
            | .ok pos => (STDIN_FILENO, { m with size := max 0 (m.size - pos) })
          else (STDIN_FILENO, m)
        ({ slot with desc := dm.1, stat := { dm.2 with mtime := fs.now } },
         [Ev.stdinStatEv])
  else
    match statFn cfg fs slot.name with
    | .error e => ({ slot with desc := ERRNO_ENCODE e }, [Ev.statEv slot.name])
    | .ok m => ({ slot with stat := m }, [Ev.statEv slot.name])

/-- diff.c lines 1113-1146: the stat loop over both slots, with the
deduplication of a right-hand name equal to the left-hand one. -/
def statStage (cfg : Config) (fs : FS) (st : CmpState) : CmpState :=
  let st1 :=
    if st.file0.desc ≠ NONEXISTENT then
      let r := resolveSlotStat cfg fs st.file0
      { st with file0 := r.1, trace := st.trace ++ r.2 }
    else st
  if st1.file1.desc ≠ NONEXISTENT then
    if file_name_eq st1.file1.name st1.file0.name then
      { st1 with file1 := { st1.file1 with desc := st1.file0.desc,
                                           stat := st1.file0.stat } }
    else
      let r := resolveSlotStat cfg fs st1.file1
      { st1 with file1 := r.1, trace := st1.trace ++ r.2 }
  else st1

/-- diff.c lines 1148-1164: mark a slot nonexistent for -N / -P when it is an
inaccessible empty regular file, or a top-level not-found operand whose
counterpart resolved. -/
def promoteSlot (cfg : Config) (isFirst : Bool) (parentIsNone : Bool)
    (slot other : FileSlot) : FileSlot :=
  if (cfg.new_file ∨ (isFirst ∧ cfg.unidirectional_new_file))
     ∧ (if slot.desc = UNOPENED then
          isReg slot.stat.mode ∧ slot.stat.mode.perms = 0 ∧ slot.stat.size = 0
        else
          (slot.desc = ERRNO_ENCODE ENOENT ∨ slot.desc = ERRNO_ENCODE EBADF)
          ∧ parentIsNone
          ∧ (other.desc = UNOPENED ∨ other.desc = STDIN_FILENO))
  then { slot with desc := NONEXISTENT }
  else slot

/-- The -N / -P loop is sequential: the second slot's test sees the first
slot's (possibly updated) descriptor. -/
def promoteStage (cfg : Config) (parentIsNone : Bool) (st : CmpState) :
    CmpState :=
  let f0 := promoteSlot cfg true parentIsNone st.file0 st.file1
  let f1 := promoteSlot cfg false parentIsNone st.file1 f0
  { st with file0 := f0, file1 := f1 }

/-- diff.c lines 1166-1170: a nonexistent slot gets a zeroed stat whose mode
is copied from the other slot, so type comparisons degenerate safely. -/
def absentCopySlot (slot other : FileSlot) : FileSlot :=
  if slot.desc = NONEXISTENT then
    { slot with stat := { Metadata.zero with mode := other.stat.mode } }
  else slot

def absentCopyStage (st : CmpState) : CmpState :=
  let f0 := absentCopySlot st.file0 st.file1
  let f1 := absentCopySlot st.file1 f0
  { st with file0 := f0, file1 := f1 }

/-- diff.c lines 1172-1179: report every slot whose descriptor carries an
encoded errno, forcing the pair to trouble. -/
def reportFailures (st : CmpState) : CmpState :=
  let st1 :=
    if 0 ≤ ERRNO_DECODE st.file0.desc then
      { st with msgs := st.msgs ++ [Msg.errMsg st.file0.name],
                status := EXIT_TROUBLE }
    else st
  if 0 ≤ ERRNO_DECODE st1.file1.desc then
    { st1 with msgs := st1.msgs ++ [Msg.errMsg st1.file1.name],
               status := EXIT_TROUBLE }
  else st1

/-- The whole resolution phase: lines 1081-1179. -/
def resolveStage (cfg : Config) (fs : FS) (parent : Option Parent)
    (name0? name1? : Option String) : CmpState :=
  reportFailures (absentCopyStage (promoteStage cfg parent.isNone
    (statStage cfg fs (initState parent name0? name1?))))

/-! ## Top-level directory-vs-file substitution (diff.c lines 1181-1202) -/

/-- diff.c lines 1181-1202: at the top level, when exactly one operand is a
directory, replace the directory operand by the file in that directory with
the other operand's basename, and re-stat it; comparing "-" to a directory
is a fatal error. -/
def dirSubstStage (cfg : Config) (fs : FS) (parent : Option Parent)
    (st : CmpState) : Except String CmpState :=
  if st.status = EXIT_SUCCESS ∧ parent = none
     ∧ isDir st.file0.stat.mode ≠ isDir st.file1.stat.mode then
    let dir0 := isDir st.file0.stat.mode
    let fnm := if dir0 then st.file1.name else st.file0.name
    let dir := if dir0 then st.file0.name else st.file1.name
    let filename := find_dir_file_pathname dir (last_component fnm)
    if fnm = "-" then .error "cannot compare '-' to a directory"
    else
      let trace' := st.trace ++ [Ev.statEv filename]
      match statFn cfg fs filename with
      | .ok m =>
          if dir0 then
            .ok { st with file0 := { st.file0 with name := filename, stat := m },
                          trace := trace' }
          else
            .ok { st with file1 := { st.file1 with name := filename, stat := m },
                          trace := trace' }
      | .error _ =>
          if dir0 then
            .ok { st with file0 := { st.file0 with name := filename },
                          msgs := st.msgs ++ [Msg.errMsg filename],
                          status := EXIT_TROUBLE, trace := trace' }
          else
            .ok { st with file1 := { st.file1 with name := filename },
                          msgs := st.msgs ++ [Msg.errMsg filename],
                          status := EXIT_TROUBLE, trace := trace' }
  else .ok st

/-! ## Pair classification (diff.c lines 1204-1360) -/

/-- diff.c lines 1209-1214: the `same_files` conjunction (computed before any
open, from the stat results). -/
def same_files_of (st : CmpState) : Bool :=
  st.file0.desc != NONEXISTENT && st.file1.desc != NONEXISTENT &&
    same_file st.file0.stat st.file1.stat &&
    same_file_attributes st.file0.stat st.file1.stat

def label0 (cfg : Config) (st : CmpState) : String :=
  cfg.file_label0.getD st.file0.name

def label1 (cfg : Config) (st : CmpState) : String :=
  cfg.file_label1.getD st.file1.name

def typeMismatchMsg (cfg : Config) (fs : FS) (st : CmpState) : Msg :=
  Msg.typeMismatch (label0 cfg st) (fs.fileTypeName st.file0.stat)
    (label1 cfg st) (fs.fileTypeName st.file1.stat)

/-- diff.c lines 1323-1360: the default branch: open both sides (reusing one
handle for a proven same physical file), delegate to `diff_2_files`, close
what was opened. -/
def defaultBranch (_cfg : Config) (fs : FS) (st : CmpState) :
    CmpState × CmpAction :=
  let sf := same_files_of st
  let st1 :=
    if st.file0.desc = UNOPENED then
      let fd := fs.openFile st.file0.name
      let stO := { st with file0 := { st.file0 with desc := fd },
                           trace := st.trace ++ [Ev.openEv st.file0.name] }
      if fd < 0 then
        { stO with msgs := stO.msgs ++ [Msg.errMsg st.file0.name],
                   status := EXIT_TROUBLE }
      else stO
    else st
  let st2 :=
    if st1.file1.desc = UNOPENED then
      if sf then { st1 with file1 := { st1.file1 with desc := st1.file0.desc } }
      else
        let fd := fs.openFile st1.file1.name
        let stO := { st1 with file1 := { st1.file1 with desc := fd },
                              trace := st1.trace ++ [Ev.openEv st1.file1.name] }
        if fd < 0 then
          { stO with msgs := stO.msgs ++ [Msg.errMsg st1.file1.name],
                     status := EXIT_TROUBLE }
        else stO
    else st1
  let st3 :=
    if st2.status = EXIT_SUCCESS then
      { st2 with status := fs.diff2 st2.file0.name st2.file1.name,
                 trace := st2.trace ++ [Ev.diff2Ev] }
    else st2
  let st4 :=
    if 0 ≤ st3.file0.desc ∧ fs.closeOk st3.file0.desc = false then
      { st3 with msgs := st3.msgs ++ [Msg.errMsg st3.file0.name],
                 status := EXIT_TROUBLE }
    else st3
  let st5 :=
    if 0 ≤ st4.file1.desc ∧ st4.file0.desc ≠ st4.file1.desc
       ∧ fs.closeOk st4.file1.desc = false then
      { st4 with msgs := st4.msgs ++ [Msg.errMsg st4.file1.name],
                 status := EXIT_TROUBLE }
    else st4
  (st5, .contentDiff)

/-- diff.c lines 1204-1360: the decision chain of the pair classifier, first
matching rule wins.  `.error` models a call of `fatal`. -/
def classifyStage (cfg : Config) (fs : FS) (parent : Option Parent)
    (st : CmpState) : Except String (CmpState × CmpAction) :=
  if st.status ≠ EXIT_SUCCESS then
    .ok (st, .failedEarly)
  else if st.file0.desc = NONEXISTENT ∧ st.file1.desc = NONEXISTENT then
    .ok (st, .bothAbsent)
  else if same_files_of st = true ∧ no_diff_means_no_output cfg = true then
    .ok (st, .sameFileSkip)
  else if isDir st.file0.stat.mode ∧ isDir st.file1.stat.mode then
    if cfg.output_style = OutputStyle.ifdef then
      .error "-D option not supported with directories"
    else if parent.isSome ∧ cfg.recursive = false then
      .ok ({ st with msgs := st.msgs ++
              [Msg.commonSubdirs st.file0.name st.file1.name] },
           .commonSubdirSkip)
    else
      .ok ({ st with status := fs.diffDirs st.file0.name st.file1.name,
                     trace := st.trace ++ [Ev.diffDirsEv] }, .dirWalk)
  else if (isDir st.file0.stat.mode ∨ isDir st.file1.stat.mode)
          ∨ (parent.isSome
             ∧ ¬((isReg st.file0.stat.mode ∨ isLnk st.file0.stat.mode)
                 ∧ (isReg st.file1.stat.mode ∨ isLnk st.file1.stat.mode))) then
    if st.file0.desc = NONEXISTENT ∨ st.file1.desc = NONEXISTENT then
      if (isDir st.file0.stat.mode ∨ isDir st.file1.stat.mode)
         ∧ cfg.recursive
         ∧ (cfg.new_file
            ∨ (cfg.unidirectional_new_file ∧ st.file0.desc = NONEXISTENT)) then
        .ok ({ st with status := fs.diffDirs st.file0.name st.file1.name,
                       trace := st.trace ++ [Ev.diffDirsEv] }, .synthDirWalk)
      else
        -- The C source asserts that PARENT is non-null here; a null parent
        -- is unreachable from main, modelled by the "" fallback.
        let dir := match parent with
          | some p => if st.file0.desc = NONEXISTENT then p.name1 else p.name0
          | none => ""
        .ok ({ st with msgs := st.msgs ++ [Msg.onlyIn dir st.baseName0],
                       status := EXIT_FAILURE }, .onlyInSide)
    else
      .ok ({ st with msgs := st.msgs ++ [typeMismatchMsg cfg fs st],
                     status := EXIT_FAILURE }, .typeMismatch)
  else if isLnk st.file0.stat.mode ∨ isLnk st.file1.stat.mode then
    -- Only reachable when link-following is disabled (asserted in the C).
    if isLnk st.file0.stat.mode ∧ isLnk st.file1.stat.mode then
      match fs.readlink st.file0.name with
      | none =>
          .ok ({ st with msgs := st.msgs ++ [Msg.errMsg st.file0.name],
                         status := EXIT_TROUBLE,
                         trace := st.trace ++ [Ev.readlinkEv st.file0.name] },
               .symlinkCmp)
      | some v0 =>
          match fs.readlink st.file1.name with
          | none =>
              .ok ({ st with msgs := st.msgs ++ [Msg.errMsg st.file1.name],
                             status := EXIT_TROUBLE,
                             trace := st.trace ++
                               [Ev.readlinkEv st.file0.name,
                                Ev.readlinkEv st.file1.name] }, .symlinkCmp)
          | some v1 =>
              if v0 ≠ v1 then
                .ok ({ st with msgs := st.msgs ++
                        [Msg.symlinksDiffer st.file0.name st.file1.name],
                               status := EXIT_FAILURE,
                               trace := st.trace ++
                                 [Ev.readlinkEv st.file0.name,
                                  Ev.readlinkEv st.file1.name] }, .symlinkCmp)
              else
                .ok ({ st with trace := st.trace ++
                        [Ev.readlinkEv st.file0.name,
                         Ev.readlinkEv st.file1.name] }, .symlinkCmp)
    else
      .ok ({ st with msgs := st.msgs ++ [typeMismatchMsg cfg fs st],
                     status := EXIT_FAILURE }, .typeMismatch)
  else if files_can_be_treated_as_binary cfg = true
          ∧ isReg st.file0.stat.mode ∧ isReg st.file1.stat.mode
          ∧ st.file0.stat.size ≠ st.file1.stat.size
          ∧ 0 < st.file0.stat.size ∧ 0 < st.file1.stat.size then
    .ok ({ st with msgs := st.msgs ++
            [Msg.filesDiffer (label0 cfg st) (label1 cfg st)],
                   status := EXIT_FAILURE }, .binaryFastPath)
  else
    .ok (defaultBranch cfg fs st)

/-- diff.c lines 1362-1380: report identical files when requested, flush
stdout on a non-success outcome (a failing flush is fatal). -/
def finalStage (cfg : Config) (fs : FS)
    (res : Except String (CmpState × CmpAction)) : Outcome :=
  match res with
  | .error m => .fatal m
  | .ok (st, a) =>
      if st.status = EXIT_SUCCESS then
        let msgs' :=
          if cfg.report_identical_files = true
             ∧ isDir st.file0.stat.mode = false then
            st.msgs ++ [Msg.identical (label0 cfg st) (label1 cfg st)]
          else st.msgs
        .result { status := st.status, msgs := msgs', action := a,
                  trace := st.trace,
                  finalNames := some (st.file0.name, st.file1.name) }
      else if fs.flushOk then
        .result { status := st.status, msgs := st.msgs, action := a,
                  trace := st.trace,
                  finalNames := some (st.file0.name, st.file1.name) }
      else .fatal "standard output"

def classifyFrom (cfg : Config) (fs : FS) (parent : Option Parent)
    (st : CmpState) : Outcome :=
  finalStage cfg fs (classifyStage cfg fs parent st)

/-- diff.c lines 1051-1380: `compare_files`.  The early block (lines
1067-1079) reports a one-sided child when the missing-file policies do not
apply; otherwise the pair is resolved, the top-level directory substitution
is applied, and the pair is classified. -/
def compare_files (cfg : Config) (fs : FS) (parent : Option Parent)
    (name0? name1? : Option String) : Outcome :=
  if ¬((name0?.isSome ∧ name1?.isSome)
       ∨ (cfg.unidirectional_new_file ∧ name1?.isSome)
       ∨ cfg.new_file = true) then
    let name := name0?.getD (name1?.getD "")
    -- `parent->file[!name0].name`: a null parent is dereferenced in the C;
    -- unreachable from main, modelled by the "" fallback.
    let dir := match parent with
      | some p => if name0?.isSome then p.name0 else p.name1
      | none => ""
    .result { status := EXIT_FAILURE, msgs := [Msg.onlyIn dir name],
              action := .earlyOnlyIn, trace := [], finalNames := none }
  else
    match dirSubstStage cfg fs parent
        (resolveStage cfg fs parent name0? name1?) with
    | .error m => .fatal m
    | .ok st => classifyFrom cfg fs parent st

/-! ## The operand loop of main (diff.c lines 752-788) -/

inductive MainResult where
  | usageError (msg : String)
  | fatalStop (msg : String)
  | exitWith (code : Nat)
deriving DecidableEq, Repr

/-- diff.c lines 760-761 and 767-768: `if (exit_status < status)
exit_status = status`. -/
def updateStatus (acc s : Nat) : Nat := if acc < s then s else acc

/-- The root-pair loop of main: one `compare_files` call per pair, folding
statuses with `updateStatus`; a `fatal` terminates the run with
EXIT_TROUBLE immediately, and `check_stdout` ends the run. -/
def runPairsLoop (cfg : Config) (fs : FS) :
    List (String × String) → Nat → MainResult
  | [], acc => if fs.stdoutOk then .exitWith acc else .fatalStop "write failed"
  | pr :: rest, acc =>
      match compare_files cfg fs none (some pr.1) (some pr.2) with
      | .fatal m => .fatalStop m
      | .result r => runPairsLoop cfg fs rest (updateStatus acc r.status)

/-- The status `main` folds for one root pair (EXIT_TROUBLE for a fatal,
which in fact never reaches the fold). -/
def pairStatus (cfg : Config) (fs : FS) (pr : String × String) : Nat :=
  match compare_files cfg fs none (some pr.1) (some pr.2) with
  | .fatal _ => EXIT_TROUBLE
  | .result r => r.status

/-- diff.c lines 752-788: dispatch over --from-file / --to-file / the plain
two-operand form.  The two-operand form assigns the single comparison's
status directly, which coincides with folding the one-element list since
statuses are non-negative. -/
def diffMain (cfg : Config) (fs : FS) (fromFile toFile : Option String)
    (operands : List String) : MainResult :=
  match fromFile, toFile with
  | some _, some _ => .fatalStop "--from-file and --to-file both specified"
  | some ff, none =>
      runPairsLoop cfg fs (operands.map (fun op => (ff, op))) EXIT_SUCCESS
  | none, some tf =>
      runPairsLoop cfg fs (operands.map (fun op => (op, tf))) EXIT_SUCCESS
  | none, none =>
      match operands with
      | [a, b] => runPairsLoop cfg fs [(a, b)] EXIT_SUCCESS
      | _ => .usageError "operand count"

/-! ## Concrete fixtures -/

def regMode : StMode := { ftype := .regular, perms := 420 }
def dirMode : StMode := { ftype := .directory, perms := 493 }
def lnkMode : StMode := { ftype := .symlink, perms := 511 }

def regMeta (sz : Int) (ino : Nat) : Metadata :=
  { mode := regMode, size := sz, mtime := 100, dev := 1, ino := ino, uid := 0 }

def dirMeta (ino : Nat) : Metadata :=
  { mode := dirMode, size := 64, mtime := 100, dev := 1, ino := ino, uid := 0 }

def lnkMeta (ino : Nat) : Metadata :=
  { mode := lnkMode, size := 4, mtime := 100, dev := 1, ino := ino, uid := 0 }

/-- A permission-less empty regular file (the kind -N / -P treat as a stand-in
for a nonexistent file). -/
def plMeta : Metadata :=
  { mode := { ftype := .regular, perms := 0 }, size := 0, mtime := 100,
    dev := 1, ino := 77, uid := 0 }

def specMeta : Metadata :=
  { mode := { ftype := .other, perms := 420 }, size := 0, mtime := 100,
    dev := 1, ino := 78, uid := 0 }

def statTable (n : String) : Except Nat Metadata :=
  if n = "ra" then .ok (regMeta 5 10)
  else if n = "rb" then .ok (regMeta 7 11)
  else if n = "rc" then .ok (regMeta 5 10)
  else if n = "d1" then .ok (dirMeta 30)
  else if n = "d2" then .ok (dirMeta 31)
  else if n = "d1/ra" then .ok (regMeta 5 10)
  else if n = "d1/sub" then .ok (dirMeta 40)
  else if n = "d2/sub" then .ok (dirMeta 41)
  else if n = "l1" then .ok (lnkMeta 20)
  else if n = "l2" then .ok (lnkMeta 21)
  else if n = "l3" then .ok (lnkMeta 22)
  else if n = "pl1" then .ok plMeta
  else if n = "pl2" then .ok plMeta
  else if n = "sp1" then .ok specMeta
  else .error ENOENT

def fs0 : FS :=
  { stat := statTable
    lstat := statTable
    stdinStat := .ok (regMeta 9 90)
    stdinPos := .ok 0
    now := 555
    openFile := fun n => if n = "ra" then 3 else 4
    closeOk := fun _ => true
    readlink := fun n =>
      if n = "l1" then some "tgt" else if n = "l2" then some "tgt"
      else if n = "l3" then some "other-tgt" else none
    diff2 := fun a _ => if a = "ra" then 1 else 0
    diffDirs := fun _ _ => 1
    fileTypeName := fun m =>
      match m.mode.ftype with
      | .regular => "regular file"
      | .directory => "directory"
      | .symlink => "symbolic link"
      | .other => "weird file"
    flushOk := true
    stdoutOk := true }

def cfg0 : Config :=
  { new_file := false, unidirectional_new_file := false, recursive := false,
    report_identical_files := false, brief := false, binary := true,
    ignore_blank_lines := false, ignore_case := false,
    strip_trailing_cr := false, has_ignore_regexps := false,
    ignore_white_space := false, no_dereference_symlinks := false,
    output_style := .normal, suppress_common_lines := false,
    group_format_unchanged := "%=", line_format_unchanged := "",
    file_label0 := none, file_label1 := none }

def cfgNS : Config :=
  { cfg0 with new_file := true, report_identical_files := true }

def stMiss : CmpState := resolveStage cfg0 fs0 none (some "miss") (some "rb")

def cfgL : Config := { cfg0 with no_dereference_symlinks := true }

def cfgLS : Config :=
  { cfgL with report_identical_files := true }

def stL : CmpState := resolveStage cfgL fs0 none (some "l1") (some "l3")

def cfgQ : Config := { cfg0 with brief := true }

def cfgD : Config := { cfg0 with output_style := .ifdef }

def stDD : CmpState := resolveStage cfgD fs0 none (some "d1") (some "d2")

def stLR : CmpState := resolveStage cfgL fs0 none (some "l1") (some "ra")

def stDR : CmpState := resolveStage cfg0 fs0 none (some "d1") (some "ra")

def stDS : CmpState := resolveStage cfg0 fs0 none (some "d1") (some "-")

example :
    statusOf (compare_files cfg0 fs0 none (some "ra") (some "rb"))
      = some EXIT_FAILURE := by decide

example :
    actionOf (compare_files cfg0 fs0 none (some "ra") (some "rc"))
      = some CmpAction.sameFileSkip := by decide

example :
    msgsOf (compare_files cfg0 fs0 none (some "miss") (some "miss"))
      = some [Msg.errMsg "miss", Msg.errMsg "miss"] := by decide

example :
    msgsOf (compare_files { cfg0 with new_file := true,
                                      report_identical_files := true }
        fs0 none (some "pl1") (some "pl2"))
      = some [Msg.identical "pl1" "pl2"] := by decide

example :
    msgsOf (compare_files { cfg0 with no_dereference_symlinks := true }
        fs0 none (some "l1") (some "l3"))
      = some [Msg.symlinksDiffer "l1" "l3"] := by decide

example :
    msgsOf (compare_files { cfg0 with no_dereference_symlinks := true,
                                      report_identical_files := true }
        fs0 none (some "l1") (some "l2"))
      = some [Msg.identical "l1" "l2"] := by decide

example :
    compare_files cfg0 fs0 none (some "d1") (some "-") = Outcome.fatal
      "cannot compare '-' to a directory" := by decide

example :
    namesOf (compare_files cfg0 fs0 none (some "d1") (some "ra"))
      = some ("d1/ra", "ra") := by decide

example :
    msgsOf (compare_files cfg0 fs0
        (some { name0 := "d1", name1 := "d2" }) (some "sub") (some "sub"))
      = some [Msg.commonSubdirs "d1/sub" "d2/sub"] := by decide

example :
    msgsOf (compare_files cfg0 fs0
        (some { name0 := "d1", name1 := "d2" }) none (some "x"))
      = some [Msg.onlyIn "d2" "x"] := by decide

/-! ## Helper lemmas -/

theorem updateStatus_eq_max (a s : Nat) : updateStatus a s = max a s := by
  unfold updateStatus
  rcases Nat.lt_or_ge a s with h | h
  · rw [if_pos h, Nat.max_eq_right (Nat.le_of_lt h)]
  · rw [if_neg (Nat.not_lt.mpr h), Nat.max_eq_left h]

theorem runPairsLoop_acc (cfg : Config) (fs : FS)
    (pairs : List (String × String)) :
    ∀ acc : Nat,
      (∀ pr ∈ pairs,
        isFatal (compare_files cfg fs none (some pr.1) (some pr.2)) = false) →
      fs.stdoutOk = true →
      runPairsLoop cfg fs pairs acc
        = .exitWith (max acc ((pairs.map (pairStatus cfg fs)).foldr max
            EXIT_SUCCESS)) := by
  induction pairs with
  | nil =>
      intro acc _ hout
      show (if fs.stdoutOk then MainResult.exitWith acc
            else .fatalStop "write failed") = _
      rw [hout]
      simp
  | cons pr rest ih =>
      intro acc hnf hout
      have hpr := hnf pr (List.mem_cons_self pr rest)
      have hcons : runPairsLoop cfg fs (pr :: rest) acc
          = match compare_files cfg fs none (some pr.1) (some pr.2) with
            | .fatal m => .fatalStop m
            | .result r =>
                runPairsLoop cfg fs rest (updateStatus acc r.status) := rfl
      rw [hcons]
      cases hc : compare_files cfg fs none (some pr.1) (some pr.2) with
      | fatal m => rw [hc] at hpr; simp [isFatal] at hpr
      | result r =>
          have hrest : ∀ q ∈ rest,
              isFatal (compare_files cfg fs none (some q.1) (some q.2))
                = false :=
            fun q hq => hnf q (List.mem_cons_of_mem pr hq)
          dsimp only
          rw [ih (updateStatus acc r.status) hrest hout]
          have hps : pairStatus cfg fs pr = r.status := by
            unfold pairStatus; rw [hc]
          simp only [List.map_cons, List.foldr_cons, hps,
            updateStatus_eq_max]
          rw [Nat.max_assoc]

theorem finalStage_success (cfg : Config) (fs : FS) (st : CmpState)
    (a : CmpAction) (h : st.status = EXIT_SUCCESS) :
    finalStage cfg fs (.ok (st, a))
      = .result { status := st.status,
                  msgs := if cfg.report_identical_files = true
                             ∧ isDir st.file0.stat.mode = false then
                            st.msgs ++ [Msg.identical (label0 cfg st)
                              (label1 cfg st)]
                          else st.msgs,
                  action := a, trace := st.trace,
                  finalNames := some (st.file0.name, st.file1.name) } := by
  unfold finalStage
  dsimp only
  rw [if_pos h]

theorem finalStage_failure (cfg : Config) (fs : FS) (st : CmpState)
    (a : CmpAction) (h : st.status ≠ EXIT_SUCCESS) (hfl : fs.flushOk = true) :
    finalStage cfg fs (.ok (st, a))
      = .result { status := st.status, msgs := st.msgs, action := a,
                  trace := st.trace,
                  finalNames := some (st.file0.name, st.file1.name) } := by
  unfold finalStage
  dsimp only
  rw [if_neg h, hfl]
  simp

theorem actionOf_finalStage (cfg : Config) (fs : FS)
    (pr : CmpState × CmpAction) :
    actionOf (finalStage cfg fs (.ok pr)) = some pr.2
    ∨ actionOf (finalStage cfg fs (.ok pr)) = none := by
  obtain ⟨st, a⟩ := pr
  unfold finalStage
  dsimp only
  by_cases h : st.status = EXIT_SUCCESS
  · rw [if_pos h]; left; rfl
  · rw [if_neg h]
    by_cases hf : fs.flushOk = true
    · rw [hf]; simp; left; rfl
    · rw [Bool.not_eq_true] at hf
      rw [hf]; simp; right; rfl

theorem actionOf_finalStage_ne (cfg : Config) (fs : FS)
    (pr : CmpState × CmpAction) {b : CmpAction} (hab : pr.2 ≠ b) :
    actionOf (finalStage cfg fs (.ok pr)) ≠ some b := by
  rcases actionOf_finalStage cfg fs pr with h | h <;> rw [h]
  · intro hc
    exact hab (Option.some.inj hc)
  · simp

theorem defaultBranch_action (cfg : Config) (fs : FS) (st : CmpState) :
    (defaultBranch cfg fs st).2 = CmpAction.contentDiff := rfl

/-! ## Claim theorems -/

/-- C1: the process exit status equals the maximum, under the order
success(0) < differ(1) < trouble(2), of the statuses returned by
compare_files for every root pair visited (the empty fold is success), the
fold of one more status never decreases the running aggregate, and no pair
of the operand loop is skipped because of an earlier pair's status: the loop
equation folds every pair of the list. -/
theorem exit_status_is_max_of_root_pair_statuses (cfg : Config) (fs : FS)
    (pairs : List (String × String))
    (hnf : ∀ pr ∈ pairs,
      isFatal (compare_files cfg fs none (some pr.1) (some pr.2)) = false)
    (hout : fs.stdoutOk = true) :
    runPairsLoop cfg fs pairs EXIT_SUCCESS
      = .exitWith ((pairs.map (pairStatus cfg fs)).foldr max EXIT_SUCCESS)
    ∧ (∀ acc s : Nat, acc ≤ updateStatus acc s) := by
  constructor
  · rw [runPairsLoop_acc cfg fs pairs EXIT_SUCCESS hnf hout]
    simp
  · intro acc s
    rw [updateStatus_eq_max]
    exact Nat.le_max_left acc s

theorem exit_status_is_max_of_root_pair_statuses_witness :
    (∀ pr ∈ [("ra", "rb"), ("ra", "rc")],
      isFatal (compare_files cfg0 fs0 none (some pr.1) (some pr.2)) = false)
    ∧ fs0.stdoutOk = true
    ∧ runPairsLoop cfg0 fs0 [("ra", "rb"), ("ra", "rc")] EXIT_SUCCESS
        = .exitWith (([("ra", "rb"), ("ra", "rc")].map
            (pairStatus cfg0 fs0)).foldr max EXIT_SUCCESS) :=
  ⟨by decide, rfl,
   (exit_status_is_max_of_root_pair_statuses cfg0 fs0 _ (by decide) rfl).1⟩

/-- C4: for a pair with a defined parent where exactly one side is absent
and the missing-file fabrication policies do not apply, compare_files
returns differ and emits exactly one "Only in <dir>: <name>" message, where
<dir> is the parent pair's directory name on the side where the entity
exists and <name> is the child's basename. -/
theorem one_side_absent_only_in (cfg : Config) (fs : FS) (p : Parent)
    (name : String) (hn : cfg.new_file = false)
    (hu : cfg.unidirectional_new_file = false) :
    compare_files cfg fs (some p) none (some name)
      = .result { status := EXIT_FAILURE, msgs := [Msg.onlyIn p.name1 name],
                  action := .earlyOnlyIn, trace := [], finalNames := none }
    ∧ compare_files cfg fs (some p) (some name) none
      = .result { status := EXIT_FAILURE, msgs := [Msg.onlyIn p.name0 name],
                  action := .earlyOnlyIn, trace := [], finalNames := none } := by
  constructor
  · unfold compare_files
    rw [if_pos (by simp [hn, hu])]
    simp
  · unfold compare_files
    rw [if_pos (by simp [hn, hu])]
    simp

theorem one_side_absent_only_in_witness :
    cfg0.new_file = false ∧ cfg0.unidirectional_new_file = false
    ∧ compare_files cfg0 fs0 (some { name0 := "d1", name1 := "d2" })
        none (some "x")
        = .result { status := EXIT_FAILURE, msgs := [Msg.onlyIn "d2" "x"],
                    action := .earlyOnlyIn, trace := [], finalNames := none } :=
  ⟨rfl, rfl,
   (one_side_absent_only_in cfg0 fs0 { name0 := "d1", name1 := "d2" } "x"
     rfl rfl).1⟩

theorem ftype_eq_dir {m : StMode} (h : isDir m = true) :
    m.ftype = FileType.directory := by
  simpa [isDir] using h

theorem same_files_of_false_of_dir0 (st : CmpState)
    (h : isDir st.file0.stat.mode = true) : same_files_of st = false := by
  unfold same_files_of same_file isReg
  rw [ftype_eq_dir h]
  simp

/-- C6: for a pair in which at least one slot's resolution failed, the
failure is reported (one diagnostic per failed slot) at resolution time, the
resolution forces the trouble status, and the classification stage emits no
further diagnostic, performs no comparison or recursion, and keeps the
trouble status. -/
theorem failed_resolution_reported_once_then_trouble (cfg : Config) (fs : FS)
    (parent : Option Parent) (st st2 : CmpState)
    (hfl : fs.flushOk = true) (h2 : st2.status = EXIT_TROUBLE) :
    ((0 ≤ ERRNO_DECODE st.file0.desc ∨ 0 ≤ ERRNO_DECODE st.file1.desc) →
       (reportFailures st).status = EXIT_TROUBLE)
    ∧ (reportFailures st).msgs
        = st.msgs
          ++ (if 0 ≤ ERRNO_DECODE st.file0.desc
              then [Msg.errMsg st.file0.name] else [])
          ++ (if 0 ≤ ERRNO_DECODE st.file1.desc
              then [Msg.errMsg st.file1.name] else [])
    ∧ classifyFrom cfg fs parent st2
        = .result { status := st2.status, msgs := st2.msgs,
                    action := .failedEarly, trace := st2.trace,
                    finalNames := some (st2.file0.name, st2.file1.name) } := by
  refine ⟨?_, ?_, ?_⟩
  · intro h
    unfold reportFailures
    by_cases h0 : 0 ≤ ERRNO_DECODE st.file0.desc
    · rw [if_pos h0]
      dsimp only
      by_cases h1 : 0 ≤ ERRNO_DECODE st.file1.desc
      · rw [if_pos h1]
      · rw [if_neg h1]
    · rw [if_neg h0]
      rcases h with h | h
      · exact absurd h h0
      · rw [if_pos h]
  · unfold reportFailures
    by_cases h0 : 0 ≤ ERRNO_DECODE st.file0.desc <;>
      by_cases h1 : 0 ≤ ERRNO_DECODE st.file1.desc <;>
      simp [h0, h1]
  · unfold classifyFrom classifyStage
    rw [if_pos (by simp [h2])]
    exact finalStage_failure cfg fs st2 .failedEarly (by simp [h2]) hfl

theorem failed_resolution_reported_once_then_trouble_witness :
    fs0.flushOk = true ∧ stMiss.status = EXIT_TROUBLE
    ∧ classifyFrom cfg0 fs0 none stMiss
        = .result { status := stMiss.status, msgs := stMiss.msgs,
                    action := .failedEarly, trace := stMiss.trace,
                    finalNames := some (stMiss.file0.name,
                      stMiss.file1.name) } :=
  ⟨rfl, by decide,
   (failed_resolution_reported_once_then_trouble cfg0 fs0 none
     stMiss stMiss rfl (by decide)).2.2⟩

/-- C7 (amended): for a pair where both resolved sides are directories:
under the ifdef (-D) output style the run aborts fatally with "-D option
not supported with directories"; otherwise, with a parent and recursion
disabled, compare_files emits "Common subdirectories: A and B" and returns
success without descending, and in every other case it delegates to the
directory walk and returns that walk's aggregated status. -/
theorem both_directories_recurse_or_skip (cfg : Config) (fs : FS)
    (parent : Option Parent) (st : CmpState)
    (hs : st.status = EXIT_SUCCESS)
    (hd0 : isDir st.file0.stat.mode = true)
    (hd1 : isDir st.file1.stat.mode = true)
    (hn0 : st.file0.desc ≠ NONEXISTENT)
    (hfl : fs.flushOk = true) :
    (cfg.output_style = OutputStyle.ifdef →
      classifyFrom cfg fs parent st
        = .fatal "-D option not supported with directories")
    ∧ (cfg.output_style ≠ OutputStyle.ifdef →
       (parent.isSome = true ∧ cfg.recursive = false →
         classifyFrom cfg fs parent st
           = .result { status := EXIT_SUCCESS,
                       msgs := st.msgs ++
                         [Msg.commonSubdirs st.file0.name st.file1.name],
                       action := .commonSubdirSkip, trace := st.trace,
                       finalNames := some (st.file0.name, st.file1.name) })
       ∧ (¬(parent.isSome = true ∧ cfg.recursive = false) →
           statusOf (classifyFrom cfg fs parent st)
             = some (fs.diffDirs st.file0.name st.file1.name)
           ∧ actionOf (classifyFrom cfg fs parent st) = some .dirWalk
           ∧ traceOf (classifyFrom cfg fs parent st)
               = some (st.trace ++ [Ev.diffDirsEv]))) := by
  have hchain : classifyStage cfg fs parent st
      = if cfg.output_style = OutputStyle.ifdef then
          .error "-D option not supported with directories"
        else if parent.isSome ∧ cfg.recursive = false then
          .ok ({ st with msgs := st.msgs ++
                  [Msg.commonSubdirs st.file0.name st.file1.name] },
               .commonSubdirSkip)
        else
          .ok ({ st with status := fs.diffDirs st.file0.name st.file1.name,
                         trace := st.trace ++ [Ev.diffDirsEv] }, .dirWalk) := by
    unfold classifyStage
    rw [if_neg (by simp [hs]), if_neg (fun hc => hn0 hc.1),
        if_neg (by simp [same_files_of_false_of_dir0 st hd0]),
        if_pos ⟨hd0, hd1⟩]
  constructor
  · intro hifdef
    unfold classifyFrom
    rw [hchain, if_pos hifdef]
    rfl
  · intro hni
    constructor
    · intro hp
      unfold classifyFrom
      rw [hchain, if_neg hni, if_pos hp,
          finalStage_success cfg fs _ _ (by simpa using hs)]
      rw [if_neg (fun hc => by rw [hd0] at hc; exact absurd hc.2 (by simp))]
      simp [hs]
    · intro hnp
      unfold classifyFrom
      rw [hchain, if_neg hni, if_neg hnp]
      by_cases hz : fs.diffDirs st.file0.name st.file1.name = EXIT_SUCCESS
      · rw [finalStage_success cfg fs _ _ (by simpa using hz)]
        rw [if_neg (fun hc => by rw [hd0] at hc; exact absurd hc.2 (by simp))]
        simp [statusOf, actionOf, traceOf, hz]
      · rw [finalStage_failure cfg fs _ _ (by simpa using hz) hfl]
        simp [statusOf, actionOf, traceOf]

/-- C7 counterexample: under the -D (ifdef) output style a resolved
directory pair is neither reported as a common subdirectory nor delegated
to the directory walk: compare_files aborts the run fatally, refuting the
claim's unqualified skip-or-delegate dichotomy. -/
theorem both_directories_ifdef_fatal_counterexample :
    isDir stDD.file0.stat.mode = true ∧ isDir stDD.file1.stat.mode = true
    ∧ stDD.status = EXIT_SUCCESS
    ∧ compare_files cfgD fs0 none (some "d1") (some "d2")
        = .fatal "-D option not supported with directories"
    ∧ statusOf (compare_files cfgD fs0 none (some "d1") (some "d2"))
        ≠ some (fs0.diffDirs "d1" "d2") := by decide

theorem both_directories_recurse_or_skip_witness :
    ((resolveStage cfg0 fs0 (some { name0 := "d1", name1 := "d2" })
        (some "sub") (some "sub")).status = EXIT_SUCCESS
      ∧ isDir (resolveStage cfg0 fs0 (some { name0 := "d1", name1 := "d2" })
          (some "sub") (some "sub")).file0.stat.mode = true
      ∧ cfgD.output_style = OutputStyle.ifdef)
    ∧ classifyFrom cfg0 fs0 (some { name0 := "d1", name1 := "d2" })
        (resolveStage cfg0 fs0 (some { name0 := "d1", name1 := "d2" })
          (some "sub") (some "sub"))
      = .result { status := EXIT_SUCCESS,
                  msgs := [Msg.commonSubdirs "d1/sub" "d2/sub"],
                  action := .commonSubdirSkip, trace := [Ev.statEv "d1/sub",
                    Ev.statEv "d2/sub"],
                  finalNames := some ("d1/sub", "d2/sub") }
    ∧ classifyFrom cfgD fs0 none stDD
        = .fatal "-D option not supported with directories" := by
  refine ⟨⟨by decide, by decide, rfl⟩, ?_, ?_⟩
  · have h := ((both_directories_recurse_or_skip cfg0 fs0
      (some { name0 := "d1", name1 := "d2" })
      (resolveStage cfg0 fs0 (some { name0 := "d1", name1 := "d2" })
        (some "sub") (some "sub"))
      (by decide) (by decide) (by decide) (by decide) rfl).2
      (by decide)).1 ⟨rfl, rfl⟩
    rw [h]
    decide
  · exact (both_directories_recurse_or_skip cfgD fs0 none stDD
      (by decide) (by decide) (by decide) (by decide) rfl).1 rfl

/-- C8 (amended): for a pair where both sides are absent, the classification
returns success and emits no new diagnostic, except that when
report-identical-files is enabled (the copied mode not being a directory)
the standard files-are-identical message is emitted. -/
theorem both_absent_success (cfg : Config) (fs : FS)
    (parent : Option Parent) (st : CmpState)
    (hs : st.status = EXIT_SUCCESS) (hm : st.msgs = [])
    (h0 : st.file0.desc = NONEXISTENT) (h1 : st.file1.desc = NONEXISTENT) :
    statusOf (classifyFrom cfg fs parent st) = some EXIT_SUCCESS
    ∧ msgsOf (classifyFrom cfg fs parent st)
        = some (if cfg.report_identical_files = true
                   ∧ isDir st.file0.stat.mode = false
                then [Msg.identical (label0 cfg st) (label1 cfg st)]
                else [])
    ∧ traceOf (classifyFrom cfg fs parent st) = some st.trace := by
  unfold classifyFrom classifyStage
  rw [if_neg (by simp [hs]), if_pos ⟨h0, h1⟩,
      finalStage_success cfg fs st .bothAbsent hs]
  refine ⟨by simp [statusOf, hs], ?_, by simp [traceOf]⟩
  by_cases hc : cfg.report_identical_files = true
      ∧ isDir st.file0.stat.mode = false
  · rw [if_pos hc]
    simp [msgsOf, hm, hc]
  · rw [if_neg hc]
    simp [msgsOf, hm, hc]

/-- C8 counterexample: under -N and -s, two permission-less empty regular
files are both promoted to absent, yet compare_files emits the
files-are-identical diagnostic, refuting the claim that a both-absent pair
emits no diagnostic. -/
theorem both_absent_message_counterexample :
    (resolveStage cfgNS fs0 none (some "pl1") (some "pl2")).file0.desc
      = NONEXISTENT
    ∧ (resolveStage cfgNS fs0 none (some "pl1") (some "pl2")).file1.desc
      = NONEXISTENT
    ∧ msgsOf (compare_files cfgNS fs0 none (some "pl1") (some "pl2"))
      = some [Msg.identical "pl1" "pl2"]
    ∧ statusOf (compare_files cfgNS fs0 none (some "pl1") (some "pl2"))
      = some EXIT_SUCCESS := by decide

theorem both_absent_success_witness :
    ((resolveStage cfgNS fs0 none (some "pl1") (some "pl2")).status
        = EXIT_SUCCESS
      ∧ (resolveStage cfgNS fs0 none (some "pl1") (some "pl2")).msgs = [])
    ∧ statusOf (classifyFrom cfgNS fs0 none
        (resolveStage cfgNS fs0 none (some "pl1") (some "pl2")))
        = some EXIT_SUCCESS := by
  refine ⟨⟨by decide, by decide⟩, ?_⟩
  exact (both_absent_success cfgNS fs0 none
    (resolveStage cfgNS fs0 none (some "pl1") (some "pl2"))
    (by decide) (by decide) (by decide) (by decide)).1

theorem same_files_of_spec (st : CmpState) :
    same_files_of st = true
      ↔ st.file0.desc ≠ NONEXISTENT ∧ st.file1.desc ≠ NONEXISTENT
        ∧ same_file st.file0.stat st.file1.stat = true
        ∧ same_file_attributes st.file0.stat st.file1.stat = true := by
  unfold same_files_of
  simp [and_assoc]

theorem attrs_size_eq {s t : Metadata}
    (h : same_file_attributes s t = true) : s.size = t.size := by
  simp only [same_file_attributes, Bool.and_eq_true, beq_iff_eq] at h
  exact h.1.2

theorem isDir_false_of_isReg {m : StMode} (h : isReg m = true) :
    isDir m = false := by
  unfold isReg at h
  simp at h
  simp [isDir, h]

theorem isLnk_false_of_isReg {m : StMode} (h : isReg m = true) :
    isLnk m = false := by
  unfold isReg at h
  simp at h
  simp [isLnk, h]

theorem classifyFrom_action_ok (cfg : Config) (fs : FS)
    (parent : Option Parent) (st : CmpState) {a : CmpAction}
    (h : actionOf (classifyFrom cfg fs parent st) = some a) :
    ∃ st', classifyStage cfg fs parent st = .ok (st', a) := by
  unfold classifyFrom at h
  cases hcs : classifyStage cfg fs parent st with
  | error m =>
      rw [hcs] at h
      simp [finalStage, actionOf] at h
  | ok pr =>
      rw [hcs] at h
      rcases actionOf_finalStage cfg fs pr with h2 | h2
      · rw [h2] at h
        obtain rfl : pr.2 = a := Option.some.inj h
        exact ⟨pr.1, rfl⟩
      · rw [h2] at h
        exact absurd h (by simp)

theorem classify_skip_iff (cfg : Config) (fs : FS) (parent : Option Parent)
    (st : CmpState) (hs : st.status = EXIT_SUCCESS) :
    actionOf (classifyFrom cfg fs parent st) = some CmpAction.sameFileSkip
      ↔ same_files_of st = true ∧ no_diff_means_no_output cfg = true := by
  constructor
  · intro h
    obtain ⟨st', hcs⟩ := classifyFrom_action_ok cfg fs parent st h
    by_contra hc
    unfold classifyStage at hcs
    rw [if_neg (by simp [hs])] at hcs
    by_cases hb : st.file0.desc = NONEXISTENT ∧ st.file1.desc = NONEXISTENT
    · rw [if_pos hb] at hcs
      simp at hcs
    · rw [if_neg hb] at hcs
      by_cases h3 : same_files_of st = true
          ∧ no_diff_means_no_output cfg = true
      · exact hc h3
      · rw [if_neg h3] at hcs
        repeat' split at hcs
        all_goals simp [Prod.ext_iff, defaultBranch_action] at hcs
  · intro ⟨hsf, hnd⟩
    have hd := (same_files_of_spec st).mp hsf
    unfold classifyFrom classifyStage
    rw [if_neg (by simp [hs]), if_neg (fun hb => hd.1 hb.1),
        if_pos ⟨hsf, hnd⟩, finalStage_success cfg fs st _ hs]
    rfl

/-- C2: for every pair whose two slots resolved without error, the
same-physical-file short-circuit (success, without opening or reading
either file) is taken exactly when both sides are present, both are regular
files with matching device+inode identity (`same_file`), their configured
attributes are equal, and the derived no-diff-means-no-output flag is true;
it is never taken when the output style would print something for identical
files. -/
theorem same_file_short_circuit (cfg : Config) (fs : FS)
    (parent : Option Parent) (st : CmpState)
    (hs : st.status = EXIT_SUCCESS) :
    (actionOf (classifyFrom cfg fs parent st) = some CmpAction.sameFileSkip
      ↔ st.file0.desc ≠ NONEXISTENT ∧ st.file1.desc ≠ NONEXISTENT
        ∧ same_file st.file0.stat st.file1.stat = true
        ∧ same_file_attributes st.file0.stat st.file1.stat = true
        ∧ no_diff_means_no_output cfg = true)
    ∧ (no_diff_means_no_output cfg = false →
        actionOf (classifyFrom cfg fs parent st)
          ≠ some CmpAction.sameFileSkip)
    ∧ (actionOf (classifyFrom cfg fs parent st)
         = some CmpAction.sameFileSkip →
        statusOf (classifyFrom cfg fs parent st) = some EXIT_SUCCESS
        ∧ traceOf (classifyFrom cfg fs parent st) = some st.trace) := by
  have hiff := classify_skip_iff cfg fs parent st hs
  refine ⟨?_, ?_, ?_⟩
  · rw [hiff, same_files_of_spec]
    constructor
    · intro ⟨⟨a, b, c, d⟩, e⟩
      exact ⟨a, b, c, d, e⟩
    · intro ⟨a, b, c, d, e⟩
      exact ⟨⟨a, b, c, d⟩, e⟩
  · intro hnd hc
    have := (hiff.mp hc).2
    rw [hnd] at this
    exact Bool.false_ne_true this
  · intro hc
    obtain ⟨hsf, hnd⟩ := hiff.mp hc
    have hd := (same_files_of_spec st).mp hsf
    unfold classifyFrom classifyStage
    rw [if_neg (by simp [hs]), if_neg (fun hb => hd.1 hb.1),
        if_pos ⟨hsf, hnd⟩, finalStage_success cfg fs st _ hs]
    exact ⟨by simp [statusOf, hs], by simp [traceOf]⟩

theorem same_file_short_circuit_witness :
    (resolveStage cfg0 fs0 none (some "ra") (some "rc")).status = EXIT_SUCCESS
    ∧ (actionOf (classifyFrom cfg0 fs0 none
        (resolveStage cfg0 fs0 none (some "ra") (some "rc")))
        = some CmpAction.sameFileSkip
      ↔ (resolveStage cfg0 fs0 none (some "ra") (some "rc")).file0.desc
          ≠ NONEXISTENT
        ∧ (resolveStage cfg0 fs0 none (some "ra") (some "rc")).file1.desc
          ≠ NONEXISTENT
        ∧ same_file
            (resolveStage cfg0 fs0 none (some "ra") (some "rc")).file0.stat
            (resolveStage cfg0 fs0 none (some "ra") (some "rc")).file1.stat
          = true
        ∧ same_file_attributes
            (resolveStage cfg0 fs0 none (some "ra") (some "rc")).file0.stat
            (resolveStage cfg0 fs0 none (some "ra") (some "rc")).file1.stat
          = true
        ∧ no_diff_means_no_output cfg0 = true) :=
  ⟨by decide,
   (same_file_short_circuit cfg0 fs0 none
     (resolveStage cfg0 fs0 none (some "ra") (some "rc")) (by decide)).1⟩

theorem classify_fastpath_result (cfg : Config) (fs : FS)
    (parent : Option Parent) (st : CmpState)
    (hs : st.status = EXIT_SUCCESS)
    (hz0 : st.file0.desc = NONEXISTENT → st.file0.stat.size = 0)
    (hfl : fs.flushOk = true)
    (hg : files_can_be_treated_as_binary cfg = true)
    (hr0 : isReg st.file0.stat.mode = true)
    (hr1 : isReg st.file1.stat.mode = true)
    (hne : st.file0.stat.size ≠ st.file1.stat.size)
    (hp0 : 0 < st.file0.stat.size) (hp1 : 0 < st.file1.stat.size) :
    classifyFrom cfg fs parent st
      = .result { status := EXIT_FAILURE,
                  msgs := st.msgs ++
                    [Msg.filesDiffer (label0 cfg st) (label1 cfg st)],
                  action := .binaryFastPath, trace := st.trace,
                  finalNames := some (st.file0.name, st.file1.name) } := by
  unfold classifyFrom classifyStage
  rw [if_neg (by simp [hs]),
      if_neg (fun hb => by rw [hz0 hb.1] at hp0; exact lt_irrefl 0 hp0),
      if_neg (fun hsf => hne (attrs_size_eq
        (((same_files_of_spec st).mp hsf.1).2.2.2))),
      if_neg (fun hd => by
        rw [isDir_false_of_isReg hr0] at hd
        exact Bool.false_ne_true hd.1),
      if_neg (fun hd => by
        rcases hd with hd | hd
        · rcases hd with hd | hd
          · rw [isDir_false_of_isReg hr0] at hd
            exact Bool.false_ne_true hd
          · rw [isDir_false_of_isReg hr1] at hd
            exact Bool.false_ne_true hd
        · exact hd.2 ⟨Or.inl hr0, Or.inl hr1⟩),
      if_neg (fun hl => by
        rcases hl with hl | hl
        · rw [isLnk_false_of_isReg hr0] at hl
          exact Bool.false_ne_true hl
        · rw [isLnk_false_of_isReg hr1] at hl
          exact Bool.false_ne_true hl),
      if_pos ⟨hg, hr0, hr1, hne, hp0, hp1⟩,
      finalStage_failure cfg fs _ _ (by simp) hfl]

theorem classify_fastpath_iff (cfg : Config) (fs : FS)
    (parent : Option Parent) (st : CmpState)
    (hs : st.status = EXIT_SUCCESS)
    (hz0 : st.file0.desc = NONEXISTENT → st.file0.stat.size = 0)
    (hfl : fs.flushOk = true) :
    actionOf (classifyFrom cfg fs parent st) = some CmpAction.binaryFastPath
      ↔ files_can_be_treated_as_binary cfg = true
        ∧ isReg st.file0.stat.mode = true ∧ isReg st.file1.stat.mode = true
        ∧ st.file0.stat.size ≠ st.file1.stat.size
        ∧ 0 < st.file0.stat.size ∧ 0 < st.file1.stat.size := by
  constructor
  · intro h
    obtain ⟨st', hcs⟩ := classifyFrom_action_ok cfg fs parent st h
    by_contra hc
    unfold classifyStage at hcs
    repeat' split at hcs
    all_goals
      first
        | exact hc (by assumption)
        | simp [Prod.ext_iff, defaultBranch_action] at hcs
  · intro ⟨hg, hr0, hr1, hne, hp0, hp1⟩
    rw [classify_fastpath_result cfg fs parent st hs hz0 hfl hg hr0 hr1
      hne hp0 hp1]
    rfl

/-- C3: the binary fast path (emitting "Files A and B differ" and returning
differ without reading content) fires, for an error-free resolved pair,
exactly when the derived quick-binary gate is enabled, both sides are
regular files, their sizes differ and both sizes are nonzero; in particular
it never fires when the two sizes are equal. -/
theorem binary_fast_path_exact (cfg : Config) (fs : FS)
    (parent : Option Parent) (st : CmpState)
    (hs : st.status = EXIT_SUCCESS)
    (hz0 : st.file0.desc = NONEXISTENT → st.file0.stat.size = 0)
    (hfl : fs.flushOk = true) :
    (actionOf (classifyFrom cfg fs parent st)
        = some CmpAction.binaryFastPath
      ↔ files_can_be_treated_as_binary cfg = true
        ∧ isReg st.file0.stat.mode = true ∧ isReg st.file1.stat.mode = true
        ∧ st.file0.stat.size ≠ st.file1.stat.size
        ∧ 0 < st.file0.stat.size ∧ 0 < st.file1.stat.size)
    ∧ (files_can_be_treated_as_binary cfg = true →
       isReg st.file0.stat.mode = true → isReg st.file1.stat.mode = true →
       st.file0.stat.size ≠ st.file1.stat.size →
       0 < st.file0.stat.size → 0 < st.file1.stat.size →
        classifyFrom cfg fs parent st
          = .result { status := EXIT_FAILURE,
                      msgs := st.msgs ++
                        [Msg.filesDiffer (label0 cfg st) (label1 cfg st)],
                      action := .binaryFastPath, trace := st.trace,
                      finalNames := some (st.file0.name, st.file1.name) })
    ∧ (st.file0.stat.size = st.file1.stat.size →
        actionOf (classifyFrom cfg fs parent st)
          ≠ some CmpAction.binaryFastPath) := by
  refine ⟨classify_fastpath_iff cfg fs parent st hs hz0 hfl, ?_, ?_⟩
  · intro hg hr0 hr1 hne hp0 hp1
    exact classify_fastpath_result cfg fs parent st hs hz0 hfl hg hr0 hr1
      hne hp0 hp1
  · intro heq hc
    exact ((classify_fastpath_iff cfg fs parent st hs hz0 hfl).mp
      hc).2.2.2.1 heq

theorem binary_fast_path_exact_witness :
    ((resolveStage cfgQ fs0 none (some "ra") (some "rb")).status
        = EXIT_SUCCESS
      ∧ files_can_be_treated_as_binary cfgQ = true)
    ∧ classifyFrom cfgQ fs0 none
        (resolveStage cfgQ fs0 none (some "ra") (some "rb"))
      = .result { status := EXIT_FAILURE,
                  msgs := [Msg.filesDiffer "ra" "rb"],
                  action := .binaryFastPath,
                  trace := [Ev.statEv "ra", Ev.statEv "rb"],
                  finalNames := some ("ra", "rb") } := by
  refine ⟨⟨by decide, by decide⟩, ?_⟩
  have h := (binary_fast_path_exact cfgQ fs0 none
    (resolveStage cfgQ fs0 none (some "ra") (some "rb"))
    (by decide) (by decide) rfl).2.1 (by decide) (by decide) (by decide)
    (by decide) (by decide) (by decide)
  rw [h]
  decide

theorem isReg_false_of_isLnk {m : StMode} (h : isLnk m = true) :
    isReg m = false := by
  unfold isLnk at h
  simp at h
  simp [isReg, h]

theorem isDir_false_of_isLnk {m : StMode} (h : isLnk m = true) :
    isDir m = false := by
  unfold isLnk at h
  simp at h
  simp [isDir, h]

theorem same_files_of_false_of_not_reg0 (st : CmpState)
    (h : isReg st.file0.stat.mode = false) : same_files_of st = false := by
  unfold same_files_of same_file
  rw [h]
  simp

theorem same_files_of_false_of_not_reg1 (st : CmpState)
    (h : isReg st.file1.stat.mode = false) : same_files_of st = false := by
  unfold same_files_of same_file
  rw [h]
  simp

/-- C5 (amended): with link-following disabled and both resolved sides
symbolic links, compare_files reads both link targets and compares them
textually: equal targets yield success, with no message unless
report-identical-files is enabled, in which case the files-are-identical
message is emitted; unequal targets yield differ with the message
"Symbolic links A and B differ"; if only one side is a symlink, a
type-mismatch message is emitted instead and the result is differ. -/
theorem symlink_compare_amended (cfg : Config) (fs : FS)
    (parent : Option Parent) (st : CmpState)
    (hs : st.status = EXIT_SUCCESS) (hfl : fs.flushOk = true)
    (hn0 : st.file0.desc ≠ NONEXISTENT) :
    (∀ v0 v1, isLnk st.file0.stat.mode = true →
      isLnk st.file1.stat.mode = true →
      fs.readlink st.file0.name = some v0 →
      fs.readlink st.file1.name = some v1 →
      (v0 = v1 → classifyFrom cfg fs parent st
        = .result { status := EXIT_SUCCESS,
                    msgs := if cfg.report_identical_files = true then
                        st.msgs ++ [Msg.identical (label0 cfg st)
                          (label1 cfg st)]
                      else st.msgs,
                    action := .symlinkCmp,
                    trace := st.trace ++ [Ev.readlinkEv st.file0.name,
                      Ev.readlinkEv st.file1.name],
                    finalNames := some (st.file0.name, st.file1.name) })
      ∧ (v0 ≠ v1 → classifyFrom cfg fs parent st
        = .result { status := EXIT_FAILURE,
                    msgs := st.msgs ++
                      [Msg.symlinksDiffer st.file0.name st.file1.name],
                    action := .symlinkCmp,
                    trace := st.trace ++ [Ev.readlinkEv st.file0.name,
                      Ev.readlinkEv st.file1.name],
                    finalNames := some (st.file0.name, st.file1.name) }))
    ∧ (st.file1.desc ≠ NONEXISTENT →
       isLnk st.file0.stat.mode ≠ isLnk st.file1.stat.mode →
        classifyFrom cfg fs parent st
          = .result { status := EXIT_FAILURE,
                      msgs := st.msgs ++ [typeMismatchMsg cfg fs st],
                      action := .typeMismatch, trace := st.trace,
                      finalNames := some (st.file0.name, st.file1.name) }) := by
  constructor
  · intro v0 v1 hl0 hl1 hv0 hv1
    have hchain : classifyStage cfg fs parent st
        = (match fs.readlink st.file0.name with
           | none => .ok ({ st with
                 msgs := st.msgs ++ [Msg.errMsg st.file0.name],
                 status := EXIT_TROUBLE,
                 trace := st.trace ++ [Ev.readlinkEv st.file0.name] },
               .symlinkCmp)
           | some w0 =>
              match fs.readlink st.file1.name with
              | none => .ok ({ st with
                    msgs := st.msgs ++ [Msg.errMsg st.file1.name],
                    status := EXIT_TROUBLE,
                    trace := st.trace ++ [Ev.readlinkEv st.file0.name,
                      Ev.readlinkEv st.file1.name] }, .symlinkCmp)
              | some w1 =>
                  if w0 ≠ w1 then
                    .ok ({ st with
                           msgs := st.msgs ++
                             [Msg.symlinksDiffer st.file0.name st.file1.name],
                           status := EXIT_FAILURE,
                           trace := st.trace ++ [Ev.readlinkEv st.file0.name,
                             Ev.readlinkEv st.file1.name] }, .symlinkCmp)
                  else
                    .ok ({ st with
                           trace := st.trace ++
                             [Ev.readlinkEv st.file0.name,
                              Ev.readlinkEv st.file1.name] }, .symlinkCmp)) := by
      unfold classifyStage
      rw [if_neg (by simp [hs]),
          if_neg (fun hb => hn0 hb.1),
          if_neg (fun hsf => by
            rw [same_files_of_false_of_not_reg0 st
              (isReg_false_of_isLnk hl0)] at hsf
            exact Bool.false_ne_true hsf.1),
          if_neg (fun hd => by
            rw [isDir_false_of_isLnk hl0] at hd
            exact Bool.false_ne_true hd.1),
          if_neg (fun hd => by
            rcases hd with hd | hd
            · rcases hd with hd | hd
              · rw [isDir_false_of_isLnk hl0] at hd
                exact Bool.false_ne_true hd
              · rw [isDir_false_of_isLnk hl1] at hd
                exact Bool.false_ne_true hd
            · exact hd.2 ⟨Or.inr hl0, Or.inr hl1⟩),
          if_pos (Or.inl hl0), if_pos ⟨hl0, hl1⟩]
    constructor
    · intro hv
      unfold classifyFrom
      rw [hchain, hv0, hv1]
      dsimp only
      rw [if_neg (fun hne => hne hv),
          finalStage_success cfg fs _ _ (by simpa using hs)]
      dsimp only
      rw [isDir_false_of_isLnk hl0]
      simp [label0, label1, hs]
    · intro hv
      unfold classifyFrom
      rw [hchain, hv0, hv1]
      dsimp only
      rw [if_pos hv, finalStage_failure cfg fs _ _ (by simp) hfl]
  · intro hn1 hx
    have key : classifyStage cfg fs parent st
        = .ok ({ st with
                 msgs := st.msgs ++ [typeMismatchMsg cfg fs st],
                 status := EXIT_FAILURE }, .typeMismatch) := by
      cases h0 : isLnk st.file0.stat.mode with
      | true =>
          have h1 : isLnk st.file1.stat.mode = false := by
            cases hb : isLnk st.file1.stat.mode
            · rfl
            · exact absurd (h0.trans hb.symm) hx
          unfold classifyStage
          rw [if_neg (by simp [hs]),
              if_neg (fun hb => hn0 hb.1),
              if_neg (fun hsf => by
                rw [same_files_of_false_of_not_reg0 st
                  (isReg_false_of_isLnk h0)] at hsf
                exact Bool.false_ne_true hsf.1),
              if_neg (fun hd => by
                rw [isDir_false_of_isLnk h0] at hd
                exact Bool.false_ne_true hd.1)]
          split
          · rw [if_neg (fun hb => hb.elim hn0 hn1)]
          · rw [if_pos (Or.inl h0),
                if_neg (fun hb => by
                  rw [h1] at hb
                  exact Bool.false_ne_true hb.2)]
      | false =>
          have h1 : isLnk st.file1.stat.mode = true := by
            cases hb : isLnk st.file1.stat.mode
            · exact absurd (h0.trans hb.symm) hx
            · rfl
          unfold classifyStage
          rw [if_neg (by simp [hs]),
              if_neg (fun hb => hn0 hb.1),
              if_neg (fun hsf => by
                rw [same_files_of_false_of_not_reg1 st
                  (isReg_false_of_isLnk h1)] at hsf
                exact Bool.false_ne_true hsf.1),
              if_neg (fun hd => by
                rw [isDir_false_of_isLnk h1] at hd
                exact Bool.false_ne_true hd.2)]
          split
          · rw [if_neg (fun hb => hb.elim hn0 hn1)]
          · rw [if_pos (Or.inr h1),
                if_neg (fun hb => by
                  rw [h0] at hb
                  exact Bool.false_ne_true hb.1)]
    unfold classifyFrom
    rw [key, finalStage_failure cfg fs _ _ (by simp) hfl]

/-- C5 counterexample: with link-following disabled and
report-identical-files enabled, two symlinks with equal targets yield
success but a diagnostic is emitted, refuting "equal targets yield success
with no message". -/
theorem symlink_equal_targets_message_counterexample :
    fs0.readlink "l1" = some "tgt" ∧ fs0.readlink "l2" = some "tgt"
    ∧ statusOf (compare_files cfgLS fs0 none (some "l1") (some "l2"))
        = some EXIT_SUCCESS
    ∧ msgsOf (compare_files cfgLS fs0 none (some "l1") (some "l2"))
        = some [Msg.identical "l1" "l2"] := by decide

theorem symlink_compare_amended_witness :
    (stL.status = EXIT_SUCCESS ∧ isLnk stL.file0.stat.mode = true
      ∧ isLnk stL.file1.stat.mode = true
      ∧ fs0.readlink stL.file0.name = some "tgt"
      ∧ fs0.readlink stL.file1.name = some "other-tgt"
      ∧ isLnk stLR.file0.stat.mode ≠ isLnk stLR.file1.stat.mode)
    ∧ classifyFrom cfgL fs0 none stL
      = .result { status := EXIT_FAILURE,
                  msgs := stL.msgs ++
                    [Msg.symlinksDiffer stL.file0.name stL.file1.name],
                  action := .symlinkCmp,
                  trace := stL.trace ++ [Ev.readlinkEv stL.file0.name,
                    Ev.readlinkEv stL.file1.name],
                  finalNames := some (stL.file0.name, stL.file1.name) }
    ∧ classifyFrom cfgL fs0 none stLR
      = .result { status := EXIT_FAILURE,
                  msgs := stLR.msgs ++ [typeMismatchMsg cfgL fs0 stLR],
                  action := .typeMismatch, trace := stLR.trace,
                  finalNames := some (stLR.file0.name, stLR.file1.name) } :=
  ⟨⟨by decide, by decide, by decide, by decide, by decide, by decide⟩,
   (((symlink_compare_amended cfgL fs0 none stL (by decide) rfl
       (by decide)).1 "tgt" "other-tgt" (by decide) (by decide)
       (by decide) (by decide)).2 (by decide)),
   ((symlink_compare_amended cfgL fs0 none stLR (by decide) rfl
       (by decide)).2 (by decide) (by decide))⟩

theorem resolveSlotStat_name (cfg : Config) (fs : FS) (slot : FileSlot) :
    (resolveSlotStat cfg fs slot).1.name = slot.name := by
  unfold resolveSlotStat
  repeat' split
  all_goals rfl

theorem initState_dup (s : String) :
    initState none (some s) (some s)
      = { file0 := { name := s, desc := UNOPENED, stat := Metadata.zero },
          file1 := { name := s, desc := UNOPENED, stat := Metadata.zero },
          baseName0 := s, status := EXIT_SUCCESS, msgs := [],
          trace := [] } := rfl

theorem statStage_dedup (cfg : Config) (fs : FS) (s : String) :
    statStage cfg fs (initState none (some s) (some s))
      = { file0 := (resolveSlotStat cfg fs
              { name := s, desc := UNOPENED, stat := Metadata.zero }).1,
          file1 := { name := s,
                     desc := (resolveSlotStat cfg fs
                       { name := s, desc := UNOPENED,
                         stat := Metadata.zero }).1.desc,
                     stat := (resolveSlotStat cfg fs
                       { name := s, desc := UNOPENED,
                         stat := Metadata.zero }).1.stat },
          baseName0 := s, status := EXIT_SUCCESS, msgs := [],
          trace := (resolveSlotStat cfg fs
            { name := s, desc := UNOPENED, stat := Metadata.zero }).2 } := by
  rw [initState_dup]
  unfold statStage
  dsimp only
  rw [if_pos (by decide : (UNOPENED : Int) ≠ NONEXISTENT)]
  dsimp only
  rw [if_pos (by decide : (UNOPENED : Int) ≠ NONEXISTENT)]
  rw [if_pos (by
    unfold file_name_eq
    rw [resolveSlotStat_name]
    simp)]
  simp

theorem promoteSlot_not_applicable (cfg : Config) (first pn : Bool)
    (slot other : FileSlot) (e eo : Nat)
    (hd : slot.desc = ERRNO_ENCODE e) (ho : other.desc = ERRNO_ENCODE eo) :
    promoteSlot cfg first pn slot other = slot := by
  have hd2 : slot.desc ≠ UNOPENED := by
    rw [hd]
    show ¬(-3 - (e : Int) = -2)
    omega
  have ho2 : other.desc ≠ UNOPENED := by
    rw [ho]
    show ¬(-3 - (eo : Int) = -2)
    omega
  have ho3 : other.desc ≠ STDIN_FILENO := by
    rw [ho]
    show ¬(-3 - (eo : Int) = 0)
    omega
  unfold promoteSlot
  rw [if_neg]
  intro hcond
  have hrest := hcond.2
  rw [if_neg hd2] at hrest
  rcases hrest.2.2 with h | h
  · exact ho2 h
  · exact ho3 h

/-- C9 (amended): when the right-hand name textually equals the left-hand
name, the right slot's descriptor and metadata are copied from the left slot
and no second stat of that name is performed (the trace holds a single stat
event); a resolution error on that name is, however, reported once per slot,
i.e. the diagnostic appears twice, and the pair is trouble. -/
theorem dedup_right_name_copies_slot (cfg : Config) (fs : FS) (s : String) :
    ((statStage cfg fs (initState none (some s) (some s))).file1.desc
        = (statStage cfg fs (initState none (some s) (some s))).file0.desc
      ∧ (statStage cfg fs (initState none (some s) (some s))).file1.stat
        = (statStage cfg fs (initState none (some s) (some s))).file0.stat)
    ∧ (s ≠ "-" →
        (statStage cfg fs (initState none (some s) (some s))).trace
          = [Ev.statEv s])
    ∧ (∀ e : Nat, s ≠ "-" → statFn cfg fs s = .error e →
        (resolveStage cfg fs none (some s) (some s)).msgs
            = [Msg.errMsg s, Msg.errMsg s]
        ∧ (resolveStage cfg fs none (some s) (some s)).status
            = EXIT_TROUBLE) := by
  have hss := statStage_dedup cfg fs s
  refine ⟨?_, ?_, ?_⟩
  · rw [hss]
    exact ⟨rfl, rfl⟩
  · intro hns
    rw [hss]
    show (resolveSlotStat cfg fs
      { name := s, desc := UNOPENED, stat := Metadata.zero }).2
        = [Ev.statEv s]
    unfold resolveSlotStat
    rw [if_neg hns]
    cases statFn cfg fs s <;> rfl
  · intro e hns he
    have hr : resolveSlotStat cfg fs
        { name := s, desc := UNOPENED, stat := Metadata.zero }
        = ({ name := s, desc := ERRNO_ENCODE e, stat := Metadata.zero },
           [Ev.statEv s]) := by
      unfold resolveSlotStat
      rw [if_neg hns, he]
    unfold resolveStage
    rw [hss, hr]
    unfold promoteStage
    simp only [Option.isNone_none]
    try dsimp only
    rw [promoteSlot_not_applicable cfg true true
          { name := s, desc := ERRNO_ENCODE e, stat := Metadata.zero }
          { name := s, desc := ERRNO_ENCODE e, stat := Metadata.zero }
          e e rfl rfl]
    rw [promoteSlot_not_applicable cfg false true
          { name := s, desc := ERRNO_ENCODE e, stat := Metadata.zero }
          { name := s, desc := ERRNO_ENCODE e, stat := Metadata.zero }
          e e rfl rfl]
    unfold absentCopyStage absentCopySlot
    try dsimp only
    rw [if_neg (show ¬(-3 - (e : Int) = -1) by omega),
        if_neg (show ¬(-3 - (e : Int) = -1) by omega)]
    unfold reportFailures
    try dsimp only
    rw [if_pos (show (0 : Int) ≤ -3 - (-3 - (e : Int)) by omega)]
    try dsimp only
    rw [if_pos (show (0 : Int) ≤ -3 - (-3 - (e : Int)) by omega)]
    try dsimp only
    try simp

/-- C9 counterexample: for a duplicated failing operand name the
deduplication performs a single stat (one trace event) but the resolution
error is reported twice, refuting "reported only once". -/
theorem dedup_error_reported_twice_counterexample :
    (statStage cfg0 fs0 (initState none (some "miss") (some "miss"))).trace
        = [Ev.statEv "miss"]
    ∧ msgsOf (compare_files cfg0 fs0 none (some "miss") (some "miss"))
        = some [Msg.errMsg "miss", Msg.errMsg "miss"] := by decide

theorem dedup_right_name_copies_slot_witness :
    ("miss" ≠ "-" ∧ statFn cfg0 fs0 "miss" = .error ENOENT)
    ∧ (resolveStage cfg0 fs0 none (some "miss") (some "miss")).msgs
        = [Msg.errMsg "miss", Msg.errMsg "miss"]
    ∧ (resolveStage cfg0 fs0 none (some "miss") (some "miss")).status
        = EXIT_TROUBLE :=
  ⟨⟨by decide, rfl⟩,
   (dedup_right_name_copies_slot cfg0 fs0 "miss").2.2 ENOENT (by decide)
     rfl⟩

/-- C10: for a top-level pair (no parent) with exactly one directory
operand, the directory operand's name is replaced, before classification, by
the path joining the directory with the other operand's basename (the other
slot being left untouched); if the non-directory operand is the stdin
marker "-", the run aborts fatally with "cannot compare '-' to a directory"
instead of recording a recoverable trouble status. -/
theorem toplevel_dir_file_swap (cfg : Config) (fs : FS) (st : CmpState)
    (hs : st.status = EXIT_SUCCESS)
    (hx : isDir st.file0.stat.mode ≠ isDir st.file1.stat.mode) :
    ((if isDir st.file0.stat.mode then st.file1.name else st.file0.name)
        = "-" →
      dirSubstStage cfg fs none st
        = .error "cannot compare '-' to a directory")
    ∧ ((if isDir st.file0.stat.mode then st.file1.name else st.file0.name)
        ≠ "-" →
      ∃ st', dirSubstStage cfg fs none st = .ok st'
        ∧ (if isDir st.file0.stat.mode then st'.file0.name
           else st'.file1.name)
            = find_dir_file_pathname
                (if isDir st.file0.stat.mode then st.file0.name
                 else st.file1.name)
                (last_component (if isDir st.file0.stat.mode then
                  st.file1.name else st.file0.name))
        ∧ (if isDir st.file0.stat.mode then st'.file1 = st.file1
           else st'.file0 = st.file0)) := by
  have hcond : st.status = EXIT_SUCCESS ∧ (none : Option Parent) = none
      ∧ isDir st.file0.stat.mode ≠ isDir st.file1.stat.mode :=
    ⟨hs, rfl, hx⟩
  by_cases hd : isDir st.file0.stat.mode = true
  · constructor
    · intro hm
      rw [hd] at hm
      simp only [if_true] at hm
      unfold dirSubstStage
      rw [if_pos hcond, hd]
      simp only [if_true]
      rw [if_pos hm]
    · intro hm
      rw [hd] at hm
      simp only [if_true] at hm
      unfold dirSubstStage
      rw [if_pos hcond, hd]
      simp only [if_true, ite_true]
      rw [if_neg hm]
      cases he : statFn cfg fs (find_dir_file_pathname st.file0.name
          (last_component st.file1.name)) with
      | ok m => exact ⟨_, rfl, rfl, rfl⟩
      | error er => exact ⟨_, rfl, rfl, rfl⟩
  · rw [Bool.not_eq_true] at hd
    constructor
    · intro hm
      rw [hd] at hm
      simp only [Bool.false_eq_true, if_false] at hm
      unfold dirSubstStage
      rw [if_pos hcond, hd]
      simp only [Bool.false_eq_true, if_false]
      rw [if_pos hm]
    · intro hm
      rw [hd] at hm
      simp only [Bool.false_eq_true, if_false] at hm
      unfold dirSubstStage
      rw [if_pos hcond, hd]
      simp only [Bool.false_eq_true, if_false, ite_false]
      rw [if_neg hm]
      cases he : statFn cfg fs (find_dir_file_pathname st.file1.name
          (last_component st.file0.name)) with
      | ok m => exact ⟨_, rfl, rfl, rfl⟩
      | error er => exact ⟨_, rfl, rfl, rfl⟩

theorem toplevel_dir_file_swap_witness :
    (stDR.status = EXIT_SUCCESS
      ∧ isDir stDR.file0.stat.mode ≠ isDir stDR.file1.stat.mode
      ∧ stDS.status = EXIT_SUCCESS
      ∧ isDir stDS.file0.stat.mode ≠ isDir stDS.file1.stat.mode)
    ∧ dirSubstStage cfg0 fs0 none stDS
        = .error "cannot compare '-' to a directory"
    ∧ (∃ st', dirSubstStage cfg0 fs0 none stDR = .ok st'
        ∧ (if isDir stDR.file0.stat.mode then st'.file0.name
           else st'.file1.name)
            = find_dir_file_pathname
                (if isDir stDR.file0.stat.mode then stDR.file0.name
                 else stDR.file1.name)
                (last_component (if isDir stDR.file0.stat.mode then
                  stDR.file1.name else stDR.file0.name))
        ∧ (if isDir stDR.file0.stat.mode then st'.file1 = stDR.file1
           else st'.file0 = stDR.file0)) :=
  ⟨⟨by decide, by decide, by decide, by decide⟩,
   (toplevel_dir_file_swap cfg0 fs0 stDS (by decide) (by decide)).1
     (by decide),
   (toplevel_dir_file_swap cfg0 fs0 stDR (by decide) (by decide)).2
     (by decide)⟩
